import Mathlib

/-!
Shallow embedding of the EventKampus backend (`api/index.js`): data model,
the registration handler, the organisasi payment-confirmation handler, the
auth refresh handler and the payment gateway webhook handler, together with
theorems about the claims of the specification.

Strings from the JavaScript code are embedded as `List Char`; the database
tables are embedded as lists of rows; each Express handler becomes a pure
function from the database state (plus the request data and the results of
external calls such as `jwt.verify` and `snap.createTransaction`) to an HTTP
status, a response description and the new database state.
-/

namespace EventKampus

/-- Roles stored in the `role` column; `VALID_ROLES = ['PESERTA', 'ORGANISASI']`. -/
inductive Role
  | PESERTA
  | ORGANISASI
deriving DecidableEq, Repr

/-- Values that the backend writes into `status_pembayaran`:
`'PENDING'`, `'LUNAS'` (paid) and `'BATAL'` (cancelled). -/
inductive PaymentStatus
  | PENDING
  | LUNAS
  | BATAL
deriving DecidableEq, Repr

/-- Row of the `"User"` table. -/
structure User where
  id : Nat
  email : List Char
  password : List Char
  nama_lengkap : List Char
  role : Role
deriving DecidableEq, Repr

/-- Row of the `"Event"` table. -/
structure Event where
  id : Nat
  nama_event : List Char
  deskripsi : List Char
  poster_url : List Char
  tanggal_mulai : List Char
  tanggal_selesai : List Char
  lokasi : List Char
  created_by_user_id : Nat
deriving DecidableEq, Repr

/-- Row of the `"TiketTipe"` table; `harga` is validated as an integer ≥ 0
and `kuota` as an integer ≥ 1 by the ticket-creation endpoint. -/
structure TiketTipe where
  id : Nat
  event_id : Nat
  nama_tiket : List Char
  harga : Nat
  kuota : Nat
deriving DecidableEq, Repr

/-- Row of the `"Registrasi"` table. -/
structure Registrasi where
  id : Nat
  event_id : Nat
  user_id : Nat
  tiket_tipe_id : Nat
  status_pembayaran : PaymentStatus
  qr_code_unik : List Char
deriving DecidableEq, Repr

/-- The PostgreSQL database state: one list of rows per table. -/
structure DB where
  users : List User
  events : List Event
  tiketTipes : List TiketTipe
  registrasi : List Registrasi
deriving DecidableEq, Repr

/-! ### Decimal rendering of numbers and splitting of strings

JavaScript template literals such as `` `ORDER-${id}-${Date.now()}` ``
convert numbers to their decimal representation; the webhook parses them
back with `orderId.split('-')[1]`. -/

/-- Character of a single decimal digit (`d` is taken modulo 10). -/
def decDigitChar (d : Nat) : Char := Char.ofNat (48 + d % 10)

/-- Fuel-driven decimal rendering; the fuel only needs to exceed the number
of digits, and `natToChars` supplies enough. -/
def natToCharsAux : Nat → Nat → List Char
  | 0, _ => []
  | fuel + 1, n =>
    if n < 10 then [decDigitChar n]
    else natToCharsAux fuel (n / 10) ++ [decDigitChar n]

/-- Decimal representation of a natural number, as JavaScript renders a
nonnegative integer into a template literal. -/
def natToChars (n : Nat) : List Char := natToCharsAux n.succ n

/-- Accumulator-style splitting of a character list at a separator,
embedding JavaScript `String.prototype.split` with a one-character
separator. -/
def splitAux (c : Char) : List Char → List Char → List (List Char)
  | [], acc => [acc.reverse]
  | x :: xs, acc =>
    if x = c then acc.reverse :: splitAux c xs []
    else splitAux c xs (x :: acc)

/-- Embeds `s.split(c)` for a one-character separator `c`. -/
def splitOnChar (c : Char) (l : List Char) : List (List Char) :=
  splitAux c l []

/-- PostgreSQL cast of a string to an integer id (as used when the webhook's
parsed order-id fragment is compared against `"Registrasi".id`): succeeds on
a nonempty all-digit string, fails otherwise. -/
def charsToNat? (l : List Char) : Option Nat :=
  if l ≠ [] ∧ l.all (fun c => c.isDigit) then
    some (l.foldl (fun acc c => acc * 10 + (c.toNat - 48)) 0)
  else none

/-! ### The registration handler, `POST /api/events/:eventId/register` -/

/-- Embeds `` `ORDER-${pendaftaranBaru.id}-${Date.now()}` `` from the
register handler. -/
def makeOrderId (regId now : Nat) : List Char :=
  ("ORDER-".toList) ++ natToChars regId ++ ("-".toList) ++ natToChars now

/-- Embeds `` `EVT-${eventId}-USR-${userId}-${Date.now()}` ``. -/
def qrCodeUnik (eventId userId now : Nat) : List Char :=
  ("EVT-".toList) ++ natToChars eventId ++ ("-USR-".toList) ++ natToChars userId
    ++ ("-".toList) ++ natToChars now

/-- Embeds the `tiketQuery` join: `SELECT tt.*, e.nama_event FROM "TiketTipe" tt
JOIN "Event" e ON tt.event_id = e.id WHERE tt.id = $1 AND e.id = $2`, keeping
the first row if any. -/
def findTiket (db : DB) (tiket_tipe_id eventId : Nat) : Option (TiketTipe × Event) :=
  match db.tiketTipes.find? (fun tt => tt.id == tiket_tipe_id && tt.event_id == eventId) with
  | none => none
  | some tt => (db.events.find? (fun e => e.id == eventId)).map (fun e => (tt, e))

/-- The `transaction_details` object sent to Midtrans Snap. -/
structure TransactionDetails where
  order_id : List Char
  gross_amount : Nat
deriving DecidableEq, Repr

/-- The `customer_details` object sent to Midtrans Snap. -/
structure CustomerDetails where
  email : List Char
  first_name : List Char
deriving DecidableEq, Repr

/-- One entry of the `item_details` array sent to Midtrans Snap. -/
structure ItemDetail where
  id : Nat
  price : Nat
  quantity : Nat
  name : List Char
deriving DecidableEq, Repr

/-- The parameter object passed to `snap.createTransaction`. -/
structure SnapParam where
  transaction_details : TransactionDetails
  credit_card_secure : Bool
  customer_details : CustomerDetails
  item_details : List ItemDetail
deriving DecidableEq, Repr

/-- Builds the `parameter` object of the register handler's paid branch. -/
def mkSnapParam (regId now : Nat) (tiketData : TiketTipe) (ev : Event)
    (userData : User) (tiket_tipe_id : Nat) : SnapParam :=
  { transaction_details := { order_id := makeOrderId regId now, gross_amount := tiketData.harga }
    credit_card_secure := true
    customer_details := { email := userData.email, first_name := userData.nama_lengkap }
    item_details := [{ id := tiket_tipe_id, price := tiketData.harga, quantity := 1,
                       name := ev.nama_event ++ (" - ".toList) ++ tiketData.nama_tiket }] }

/-- Outcome of the register handler, one constructor per `res.status(...)`
exit of the JavaScript code. `serverError` is the outer catch branch, reached
when the paid branch's `userData` lookup returns no row so that
`userData.email` throws. -/
inductive RegisterOutcome
  | ticketNotFound
  | alreadyRegistered
  | soldOut
  | serverError
  | success (pendaftaran : Registrasi) (paymentToken : Option (List Char)) (isFree : Bool)
deriving DecidableEq, Repr

/-- HTTP status sent for each register outcome (`404`, `400`, `400`, `500`, `201`). -/
def registerHttpStatus : RegisterOutcome → Nat
  | .ticketNotFound => 404
  | .alreadyRegistered => 400
  | .soldOut => 400
  | .serverError => 500
  | .success _ _ _ => 201

/-- Result of the register handler: outcome (HTTP response), resulting
database state, and the list of calls made to `snap.createTransaction`. -/
structure RegisterResult where
  outcome : RegisterOutcome
  db : DB
  calls : List SnapParam
deriving DecidableEq, Repr

/-- Embeds the `POST /api/events/:eventId/register` handler. `newId` is the
serial id that the database assigns to the inserted row, `now` is
`Date.now()`, and `snap` is the external `snap.createTransaction` call
returning a payment token. -/
def register (db : DB) (userId eventId tiket_tipe_id newId now : Nat)
    (snap : SnapParam → List Char) : RegisterResult :=
  match findTiket db tiket_tipe_id eventId with
  | none => ⟨.ticketNotFound, db, []⟩
  | some (tiketData, ev) =>
    if db.registrasi.any (fun r => r.user_id == userId && r.event_id == eventId) then
      ⟨.alreadyRegistered, db, []⟩
    else
      let jumlahTerdaftar := (db.registrasi.filter
        (fun r => r.tiket_tipe_id == tiket_tipe_id)).length
      if tiketData.kuota ≤ jumlahTerdaftar then
        ⟨.soldOut, db, []⟩
      else
        let pendaftaranBaru : Registrasi :=
          { id := newId, event_id := eventId, user_id := userId,
            tiket_tipe_id := tiket_tipe_id, status_pembayaran := .PENDING,
            qr_code_unik := qrCodeUnik eventId userId now }
        let db' : DB := { db with registrasi := db.registrasi ++ [pendaftaranBaru] }
        if tiketData.harga = 0 then
          ⟨.success pendaftaranBaru none true, db', []⟩
        else
          match db.users.find? (fun u => u.id == userId) with
          | none => ⟨.serverError, db', []⟩
          | some userData =>
            let param := mkSnapParam pendaftaranBaru.id now tiketData ev userData tiket_tipe_id
            ⟨.success pendaftaranBaru (some (snap param)) false, db', [param]⟩

/-- Number of `"Registrasi"` rows for a ticket type, as computed by the
handler's `countQuery` (`SELECT COUNT(*) FROM "Registrasi" WHERE
tiket_tipe_id = $1`) — a count over all rows, with no status filter. -/
def countTik (db : DB) (tiket_tipe_id : Nat) : Nat :=
  (db.registrasi.filter (fun r => r.tiket_tipe_id == tiket_tipe_id)).length

/-- Modelled from the spec: "Count existing (non-cancelled) Registrations for
ticketTypeId". This is the spec's wording of the count, written down only to
compare it against the code's `countTik`; the code's `countQuery` has no
status filter. -/
def specCountNonCancelled (db : DB) (tiket_tipe_id : Nat) : Nat :=
  (db.registrasi.filter
    (fun r => r.tiket_tipe_id == tiket_tipe_id && !(r.status_pembayaran == .BATAL))).length

/-- Number of `"Registrasi"` rows for a (user, event) pair, the quantity the
handler's `registrasiCheckQuery` tests for emptiness. -/
def countPair (db : DB) (userId eventId : Nat) : Nat :=
  (db.registrasi.filter (fun r => r.user_id == userId && r.event_id == eventId)).length

/-! ### The webhook handler, `POST /api/payment/notification` -/

/-- The fields of the Midtrans `statusResponse` that the webhook handler
reads: `order_id`, `transaction_status` and `fraud_status`. -/
structure StatusResponse where
  order_id : List Char
  transaction_status : String
  fraud_status : String
deriving DecidableEq, Repr

/-- Embeds the `newStatus` computation of the webhook handler: `newStatus`
starts as `'PENDING'` and the if/else-if chain may overwrite it. -/
def mapGatewayStatus (transactionStatus fraudStatus : String) : PaymentStatus :=
  if transactionStatus = "capture" then
    if fraudStatus = "accept" then .LUNAS else .PENDING
  else if transactionStatus = "settlement" then .LUNAS
  else if transactionStatus = "cancel" ∨ transactionStatus = "deny"
      ∨ transactionStatus = "expire" then .BATAL
  else if transactionStatus = "pending" then .PENDING
  else .PENDING

/-- Embeds `UPDATE "Registrasi" SET status_pembayaran = $1 WHERE id = $2`. -/
def updateStatusById (rows : List Registrasi) (newStatus : PaymentStatus)
    (registrasiId : Nat) : List Registrasi :=
  rows.map (fun r =>
    if r.id == registrasiId then { r with status_pembayaran := newStatus } else r)

/-- Embeds the `POST /api/payment/notification` handler. The argument
`verif` is the result of `snap.transaction.notification(notification)`
(`Except.error` when that external verification call throws, which the
handler's catch branch turns into a 500). On success the handler parses
`orderId.split('-')[1]`: a missing fragment is JavaScript `undefined`, sent
to PostgreSQL as NULL so the UPDATE matches no row; a non-numeric fragment
makes the integer cast throw, again reaching the catch branch. Returns the
HTTP status and the new database state. -/
def paymentNotif (db : DB) (verif : Except Unit StatusResponse) : Nat × DB :=
  match verif with
  | .error _ => (500, db)
  | .ok statusResponse =>
    let newStatus := mapGatewayStatus statusResponse.transaction_status
      statusResponse.fraud_status
    match (splitOnChar '-' statusResponse.order_id).get? 1 with
    | none => (200, db)
    | some fragment =>
      match charsToNat? fragment with
      | none => (500, db)
      | some registrasiId =>
        (200, { db with registrasi := updateStatusById db.registrasi newStatus registrasiId })

/-! ### The confirmation handler, `PATCH /api/organisasi/confirm-payment/:registrasiId` -/

/-- Embeds the `verificationQuery` join: `SELECT e.created_by_user_id,
r.status_pembayaran FROM "Registrasi" r JOIN "Event" e ON r.event_id = e.id
WHERE r.id = $1`. -/
def confirmVerification (db : DB) (registrasiId : Nat) : Option (Registrasi × Event) :=
  match db.registrasi.find? (fun r => r.id == registrasiId) with
  | none => none
  | some r => (db.events.find? (fun e => e.id == r.event_id)).map (fun e => (r, e))

/-- Outcome of the confirm-payment handler: 404, 403 or 200 with the
RETURNING fields `id, status_pembayaran`. -/
inductive ConfirmOutcome
  | notFound
  | forbidden
  | confirmed (id : Nat) (status_pembayaran : PaymentStatus)
deriving DecidableEq, Repr

/-- HTTP status sent for each confirm-payment outcome. -/
def confirmHttpStatus : ConfirmOutcome → Nat
  | .notFound => 404
  | .forbidden => 403
  | .confirmed _ _ => 200

/-- Embeds the `PATCH /api/organisasi/confirm-payment/:registrasiId`
handler (after the `authenticateToken` and `requireRole(['ORGANISASI'])`
middlewares have admitted the caller). -/
def confirmPayment (db : DB) (organizationUserId registrasiId : Nat) : ConfirmOutcome × DB :=
  match confirmVerification db registrasiId with
  | none => (.notFound, db)
  | some (_, e) =>
    if e.created_by_user_id == organizationUserId then
      (.confirmed registrasiId .LUNAS,
        { db with registrasi := updateStatusById db.registrasi .LUNAS registrasiId })
    else
      (.forbidden, db)

/-! ### The refresh handler, `POST /api/auth/refresh` -/

/-- Result of `jwt.verify(refreshToken, JWT_REFRESH_SECRET, ...)`: `err`
when the signature is invalid or the token expired, otherwise the decoded
payload's `userId`. -/
inductive VerifyOutcome
  | err
  | ok (userId : Nat)
deriving DecidableEq, Repr

/-- Payload of a freshly signed access token: `{ userId, email, role }`. -/
structure AccessTokenPayload where
  userId : Nat
  email : List Char
  role : Role
deriving DecidableEq, Repr

/-- Outcome of the refresh handler, one constructor per `res.status(...)`
exit: missing token (401), failed verification (403), user row absent
(404), or a new access token (200). -/
inductive RefreshOutcome
  | missingToken
  | invalidToken
  | userNotFound
  | refreshed (token : AccessTokenPayload) (user : User)
deriving DecidableEq, Repr

/-- HTTP status sent for each refresh outcome. -/
def refreshHttpStatus : RefreshOutcome → Nat
  | .missingToken => 401
  | .invalidToken => 403
  | .userNotFound => 404
  | .refreshed _ _ => 200

/-- Embeds the `POST /api/auth/refresh` handler: `body` is `none` when the
request body has no `refreshToken`, otherwise the result of `jwt.verify` on
the supplied token. -/
def refresh (db : DB) (body : Option VerifyOutcome) : RefreshOutcome :=
  match body with
  | none => .missingToken
  | some .err => .invalidToken
  | some (.ok userId) =>
    match db.users.find? (fun u => u.id == userId) with
    | none => .userNotFound
    | some user =>
      .refreshed { userId := user.id, email := user.email, role := user.role } user

/-! ### Concrete fixtures used by witnesses and counterexamples -/

/-- Attendee user with id 3. -/
def exAlice : User :=
  { id := 3, email := "alice@example.com".toList, password := "h1".toList,
    nama_lengkap := "Alice".toList, role := .PESERTA }

/-- Organization user with id 2. -/
def exAcme : User :=
  { id := 2, email := "acme@example.com".toList, password := "h2".toList,
    nama_lengkap := "Acme Org".toList, role := .ORGANISASI }

/-- Event with id 1 owned by the organization user 2. -/
def exEvent : Event :=
  { id := 1, nama_event := "TechFest".toList, deskripsi := "A campus tech festival".toList,
    poster_url := "p.png".toList, tanggal_mulai := "2026-01-01".toList,
    tanggal_selesai := "2026-01-02".toList, lokasi := "Aula".toList,
    created_by_user_id := 2 }

/-- Free ticket type (id 1, price 0, quota 1) of event 1. -/
def exTiketFree : TiketTipe :=
  { id := 1, event_id := 1, nama_tiket := "Free Entry".toList, harga := 0, kuota := 1 }

/-- Paid ticket type (id 2, price 50000, quota 2) of event 1. -/
def exTiketPaid : TiketTipe :=
  { id := 2, event_id := 1, nama_tiket := "VIP".toList, harga := 50000, kuota := 2 }

/-- Pending registration of user 3 for event 1 on the free ticket type. -/
def exRegPending : Registrasi :=
  { id := 1, event_id := 1, user_id := 3, tiket_tipe_id := 1,
    status_pembayaran := .PENDING, qr_code_unik := "EVT-1-USR-3-5".toList }

/-- Cancelled registration of user 5 for event 1 on the free ticket type. -/
def exRegBatal : Registrasi :=
  { id := 1, event_id := 1, user_id := 5, tiket_tipe_id := 1,
    status_pembayaran := .BATAL, qr_code_unik := "EVT-1-USR-5-6".toList }

/-- Paid registration of user 3 for event 1 on the paid ticket type. -/
def exRegLunas : Registrasi :=
  { id := 1, event_id := 1, user_id := 3, tiket_tipe_id := 2,
    status_pembayaran := .LUNAS, qr_code_unik := "EVT-1-USR-3-7".toList }

/-- Database whose single quota-1 ticket type is fully booked. -/
def exDbFull : DB :=
  { users := [exAcme, exAlice], events := [exEvent],
    tiketTipes := [exTiketFree, exTiketPaid], registrasi := [exRegPending] }

/-- Database whose single registration for ticket type 1 is cancelled. -/
def exDbBatal : DB :=
  { users := [exAcme, exAlice], events := [exEvent],
    tiketTipes := [exTiketFree, exTiketPaid], registrasi := [exRegBatal] }

/-- Database with one already-paid registration (id 1). -/
def exDbLunas : DB :=
  { users := [exAcme, exAlice], events := [exEvent],
    tiketTipes := [exTiketFree, exTiketPaid], registrasi := [exRegLunas] }

/-- Database with no registrations. -/
def exDbEmpty : DB :=
  { users := [exAcme, exAlice], events := [exEvent],
    tiketTipes := [exTiketFree, exTiketPaid], registrasi := [] }

/-! ### Lemmas about decimal rendering and splitting -/

theorem decDigitChar_isDigit (d : Nat) : (decDigitChar d).isDigit = true := by
  have h : d % 10 < 10 := Nat.mod_lt _ (by omega)
  unfold decDigitChar
  set m := d % 10 with hm
  interval_cases m <;> decide

theorem decDigitChar_toNat (d : Nat) : (decDigitChar d).toNat = 48 + d % 10 := by
  have h : d % 10 < 10 := Nat.mod_lt _ (by omega)
  unfold decDigitChar
  set m := d % 10 with hm
  interval_cases m <;> decide

theorem natToCharsAux_all_digit (fuel : Nat) :
    ∀ n, n < fuel → ∀ c ∈ natToCharsAux fuel n, c.isDigit = true := by
  induction fuel with
  | zero => intro n hn; omega
  | succ fuel ih =>
    intro n hn c hc
    unfold natToCharsAux at hc
    by_cases h10 : n < 10
    · simp [h10] at hc
      subst hc
      exact decDigitChar_isDigit n
    · simp [h10, List.mem_append] at hc
      rcases hc with hc | hc
      · exact ih (n / 10) (by omega) c hc
      · subst hc
        exact decDigitChar_isDigit n

theorem natToChars_all_digit (n : Nat) : ∀ c ∈ natToChars n, c.isDigit = true :=
  natToCharsAux_all_digit n.succ n (Nat.lt_succ_self n)

theorem natToChars_no_dash (n : Nat) : ∀ c ∈ natToChars n, c ≠ '-' := by
  intro c hc he
  have := natToChars_all_digit n c hc
  subst he
  simp [Char.isDigit] at this

theorem natToChars_ne_nil (n : Nat) : natToChars n ≠ [] := by
  unfold natToChars natToCharsAux
  by_cases h10 : n < 10 <;> simp [h10]

theorem splitAux_sep (c : Char) (l₁ : List Char) :
    ∀ acc rest, (∀ x ∈ l₁, x ≠ c) →
      splitAux c (l₁ ++ c :: rest) acc = (acc.reverse ++ l₁) :: splitAux c rest [] := by
  induction l₁ with
  | nil => intro acc rest _; simp [splitAux]
  | cons x xs ih =>
    intro acc rest h
    have hx : x ≠ c := h x (by simp)
    simp only [List.cons_append, splitAux, if_neg hx]
    show splitAux c (xs ++ c :: rest) (x :: acc) = (acc.reverse ++ x :: xs) :: splitAux c rest []
    rw [ih (x :: acc) rest (fun y hy => h y (by simp [hy]))]
    simp

theorem splitAux_no_sep (c : Char) (l : List Char) :
    ∀ acc, (∀ x ∈ l, x ≠ c) → splitAux c l acc = [acc.reverse ++ l] := by
  induction l with
  | nil => intro acc _; simp [splitAux]
  | cons x xs ih =>
    intro acc h
    have hx : x ≠ c := h x (by simp)
    simp only [splitAux, if_neg hx]
    rw [ih (x :: acc) (fun y hy => h y (by simp [hy]))]
    simp

theorem splitOnChar_makeOrderId (regId now : Nat) :
    splitOnChar '-' (makeOrderId regId now)
      = ["ORDER".toList, natToChars regId, natToChars now] := by
  have h1 : makeOrderId regId now
      = "ORDER".toList ++ '-' :: (natToChars regId ++ '-' :: natToChars now) := by
    simp [makeOrderId]
  rw [splitOnChar, h1,
    splitAux_sep '-' ("ORDER".toList) [] (natToChars regId ++ '-' :: natToChars now)
      (by decide),
    splitAux_sep '-' (natToChars regId) [] (natToChars now) (natToChars_no_dash regId),
    splitAux_no_sep '-' (natToChars now) [] (natToChars_no_dash now)]
  simp

theorem foldl_natToCharsAux (fuel : Nat) :
    ∀ n a, n < fuel →
      (natToCharsAux fuel n).foldl (fun acc c => acc * 10 + (c.toNat - 48)) a
        = a * 10 ^ (natToCharsAux fuel n).length + n := by
  induction fuel with
  | zero => intro n a hn; omega
  | succ fuel ih =>
    intro n a hn
    unfold natToCharsAux
    by_cases h10 : n < 10
    · simp [h10, List.foldl, decDigitChar_toNat, Nat.mod_eq_of_lt h10]
    · have hrec : n / 10 < fuel := by
        have h2 : n / 10 < n := Nat.div_lt_self (by omega) (by omega)
        omega
      rw [if_neg h10, List.foldl_append, List.length_append]
      simp only [List.foldl, List.length_singleton]
      rw [ih (n / 10) a hrec, decDigitChar_toNat]
      have hmod : 48 + n % 10 - 48 = n % 10 := by omega
      rw [hmod]
      have hdm : 10 * (n / 10) + n % 10 = n := Nat.div_add_mod n 10
      calc (a * 10 ^ (natToCharsAux fuel (n / 10)).length + n / 10) * 10 + n % 10
          = a * (10 ^ (natToCharsAux fuel (n / 10)).length * 10)
              + (10 * (n / 10) + n % 10) := by ring
        _ = a * 10 ^ ((natToCharsAux fuel (n / 10)).length + 1) + n := by
              rw [hdm, pow_succ]

theorem charsToNat?_natToChars (n : Nat) : charsToNat? (natToChars n) = some n := by
  unfold charsToNat?
  rw [if_pos]
  · have := foldl_natToCharsAux n.succ n 0 (Nat.lt_succ_self n)
    unfold natToChars
    rw [this]
    simp
  · exact ⟨natToChars_ne_nil n, List.all_eq_true.mpr (natToChars_all_digit n)⟩

/-! ### List helper lemmas -/

theorem find?_map_pred_inv (g : Registrasi → Registrasi) (p : Registrasi → Bool)
    (hp : ∀ r, p (g r) = p r) (l : List Registrasi) :
    (l.map g).find? p = (l.find? p).map g := by
  induction l with
  | nil => simp
  | cons r rs ih =>
    by_cases hr : p r
    · simp [List.find?, hp r, hr]
    · simp only [List.map_cons, List.find?, hp r]
      rw [Bool.of_not_eq_true hr]
      exact ih

theorem length_filter_map_pred_inv (g : Registrasi → Registrasi) (p : Registrasi → Bool)
    (hp : ∀ r, p (g r) = p r) (l : List Registrasi) :
    ((l.map g).filter p).length = (l.filter p).length := by
  induction l with
  | nil => simp
  | cons r rs ih =>
    by_cases hr : p r
    · simp only [List.map_cons, List.filter, hp r]
      rw [hr]
      simpa using ih
    · simp only [List.map_cons, List.filter, hp r]
      rw [Bool.of_not_eq_true hr]
      exact ih

theorem length_filter_and_le (p q : Registrasi → Bool) (l : List Registrasi) :
    (l.filter (fun a => p a && q a)).length ≤ (l.filter p).length := by
  induction l with
  | nil => simp
  | cons r rs ih =>
    by_cases hpr : p r
    · by_cases hqr : q r
      · simp [List.filter, hpr, hqr]; omega
      · simp [List.filter, hpr, hqr]; omega
    · simp [List.filter, hpr]; omega

theorem any_false_filter_nil (p : Registrasi → Bool) (l : List Registrasi)
    (h : l.any p = false) : l.filter p = [] := by
  induction l with
  | nil => simp
  | cons r rs ih =>
    simp only [List.any_cons, Bool.or_eq_false_iff] at h
    simp [List.filter, h.1, ih h.2]

/-- The updater of `updateStatusById` leaves every field but
`status_pembayaran` unchanged, so predicates over the other fields are
invariant under it. -/
theorem updateStatusById_countTik (rows : List Registrasi) (s : PaymentStatus)
    (i t : Nat) :
    ((updateStatusById rows s i).filter (fun r => r.tiket_tipe_id == t)).length
      = (rows.filter (fun r => r.tiket_tipe_id == t)).length := by
  unfold updateStatusById
  apply length_filter_map_pred_inv
  intro r
  by_cases h : r.id == i <;> simp [h]

theorem updateStatusById_idem (rows : List Registrasi) (s : PaymentStatus) (i : Nat) :
    updateStatusById (updateStatusById rows s i) s i = updateStatusById rows s i := by
  unfold updateStatusById
  rw [List.map_map]
  apply List.map_congr_left
  intro r _
  by_cases h : r.id = i <;> simp [h]

/-- Reduced form of the webhook handler on a successfully verified
notification whose order-id fragment parses and casts to an integer. -/
theorem paymentNotif_ok_parsed (db : DB) (sr : StatusResponse) (frag : List Char)
    (rid : Nat) (h1 : (splitOnChar '-' sr.order_id).get? 1 = some frag)
    (h2 : charsToNat? frag = some rid) :
    paymentNotif db (Except.ok sr)
      = (200, { db with registrasi :=
          (updateStatusById db.registrasi
            (mapGatewayStatus sr.transaction_status sr.fraud_status) rid) }) := by
  simp only [paymentNotif, h1, h2]

/-- Case analysis of the register handler's effect on the database: either
some check failed and the database is unchanged, or exactly the new PENDING
row was appended, the duplicate check was empty, and the capacity guard
held for the ticket type found. -/
theorem register_db_eq (db : DB) (userId eventId tid newId now : Nat)
    (snap : SnapParam → List Char) :
    (register db userId eventId tid newId now snap).db = db ∨
    ((register db userId eventId tid newId now snap).db
        = { db with registrasi := db.registrasi
              ++ [{ id := newId, event_id := eventId, user_id := userId,
                    tiket_tipe_id := tid, status_pembayaran := .PENDING,
                    qr_code_unik := qrCodeUnik eventId userId now }] } ∧
      db.registrasi.any (fun r => r.user_id == userId && r.event_id == eventId) = false ∧
      ∀ tt ev, findTiket db tid eventId = some (tt, ev) → countTik db tid < tt.kuota) := by
  cases hf : findTiket db tid eventId with
  | none => left; simp [register, hf]
  | some p =>
    obtain ⟨tt, ev⟩ := p
    by_cases hdup : db.registrasi.any
        (fun r => r.user_id == userId && r.event_id == eventId) = true
    · left; simp [register, hf, hdup]
    · rw [Bool.not_eq_true] at hdup
      by_cases hcnt : tt.kuota ≤
          (db.registrasi.filter (fun r => r.tiket_tipe_id == tid)).length
      · left; simp [register, hf, hdup, hcnt]
      · have hq : ∀ tt' ev', (some (tt, ev) : Option (TiketTipe × Event)) = some (tt', ev') →
            countTik db tid < tt'.kuota := by
          intro tt' ev' hf'
          have hpq := Option.some.inj hf'
          have h1 : tt = tt' := congrArg Prod.fst hpq
          subst h1
          unfold countTik
          omega
        by_cases hh : tt.harga = 0
        · right
          exact ⟨by simp [register, hf, hdup, hcnt, hh], hdup, hq⟩
        · cases hu : db.users.find? (fun u => u.id == userId) with
          | none => right; exact ⟨by simp [register, hf, hdup, hcnt, hh, hu], hdup, hq⟩
          | some ud => right; exact ⟨by simp [register, hf, hdup, hcnt, hh, hu], hdup, hq⟩

/-- Shape of the register handler's successful outcome: the returned
`pendaftaran` is the appended PENDING row, and the payment branch is
determined by the price of the ticket type found. -/
theorem register_success_shape (db : DB) (userId eventId tid newId now : Nat)
    (snap : SnapParam → List Char) (p : Registrasi) (tok : Option (List Char))
    (isF : Bool)
    (hout : (register db userId eventId tid newId now snap).outcome
      = .success p tok isF) :
    p = { id := newId, event_id := eventId, user_id := userId, tiket_tipe_id := tid,
          status_pembayaran := .PENDING, qr_code_unik := qrCodeUnik eventId userId now } ∧
    (register db userId eventId tid newId now snap).db
      = { db with registrasi := db.registrasi ++ [p] } ∧
    (∀ tt ev, findTiket db tid eventId = some (tt, ev) →
      (tt.harga = 0 ∧ isF = true ∧ tok = none
          ∧ (register db userId eventId tid newId now snap).calls = []) ∨
      (tt.harga ≠ 0 ∧ isF = false ∧ ∃ userData,
        db.users.find? (fun u => u.id == userId) = some userData ∧
        tok = some (snap (mkSnapParam newId now tt ev userData tid)) ∧
        (register db userId eventId tid newId now snap).calls
          = [mkSnapParam newId now tt ev userData tid])) := by
  cases hf : findTiket db tid eventId with
  | none => simp [register, hf] at hout
  | some q =>
    obtain ⟨tt, ev⟩ := q
    by_cases hdup : db.registrasi.any
        (fun r => r.user_id == userId && r.event_id == eventId) = true
    · simp [register, hf, hdup] at hout
    · rw [Bool.not_eq_true] at hdup
      by_cases hcnt : tt.kuota ≤
          (db.registrasi.filter (fun r => r.tiket_tipe_id == tid)).length
      · simp [register, hf, hdup, hcnt] at hout
      · by_cases hh : tt.harga = 0
        · simp only [register, hf, hdup, hcnt] at hout
          simp [hh] at hout
          obtain ⟨hp, htok, hisF⟩ := hout
          refine ⟨hp.symm, by simp [register, hf, hdup, hcnt, hh, hp], ?_⟩
          intro tt' ev' hf'
          have hpq := Option.some.inj hf'
          have h1 : tt = tt' := congrArg Prod.fst hpq
          subst h1
          exact Or.inl ⟨hh, hisF, htok.symm,
            by simp [register, hf, hdup, hcnt, hh]⟩
        · cases hu : db.users.find? (fun u => u.id == userId) with
          | none => simp [register, hf, hdup, hcnt, hh, hu] at hout
          | some ud =>
            simp only [register, hf, hdup, hcnt] at hout
            simp [hh, hu] at hout
            obtain ⟨hp, htok, hisF⟩ := hout
            refine ⟨hp.symm, by simp [register, hf, hdup, hcnt, hh, hu, hp], ?_⟩
            intro tt' ev' hf'
            have hpq := Option.some.inj hf'
            have h1 : tt = tt' := congrArg Prod.fst hpq
            have h2 : ev = ev' := congrArg Prod.snd hpq
            subst h1
            subst h2
            exact Or.inr ⟨hh, hisF, ud, rfl, htok.symm,
              by simp [register, hf, hdup, hcnt, hh, hu]⟩

/-! ### Claim theorems -/

/-- C7: the order identifier `ORDER-<registrationId>-<timestamp>` sent to
the payment gateway round-trips through the webhook's parsing
`orderId.split('-')[1]`: the parsed fragment is exactly the decimal
representation of the Registration id that created it, and the integer cast
applied when the UPDATE compares it against `"Registrasi".id` maps it back
to that id. -/
theorem C7_orderId_roundtrip (regId now : Nat) :
    (splitOnChar '-' (makeOrderId regId now)).get? 1 = some (natToChars regId) ∧
    charsToNat? (natToChars regId) = some regId := by
  constructor
  · rw [splitOnChar_makeOrderId]
    rfl
  · exact charsToNat?_natToChars regId

/-- C5 (counterexample): the claim says the webhook returns HTTP 200 on
every input, including those whose internal processing fails; but when the
gateway verification call throws, the catch branch answers 500. -/
theorem C5_counterexample :
    paymentNotif exDbEmpty (Except.error ()) = (500, exDbEmpty) ∧
    (paymentNotif exDbEmpty (Except.error ())).1 ≠ 200 := by
  decide

/-- C5 (amended): the webhook acknowledges with HTTP 200 only when internal
processing succeeds (including the case of a missing order-id fragment,
which is sent as NULL and updates no row); when the gateway verification
throws, or when the fragment fails the integer cast, the catch branch
answers HTTP 500, logging the failure. -/
theorem C5_ack_only_on_success (db : DB) (sr : StatusResponse) :
    paymentNotif db (Except.error ()) = (500, db) ∧
    ((splitOnChar '-' sr.order_id).get? 1 = none →
      paymentNotif db (Except.ok sr) = (200, db)) ∧
    (∀ frag, (splitOnChar '-' sr.order_id).get? 1 = some frag →
      charsToNat? frag = none → paymentNotif db (Except.ok sr) = (500, db)) ∧
    (∀ frag rid, (splitOnChar '-' sr.order_id).get? 1 = some frag →
      charsToNat? frag = some rid → (paymentNotif db (Except.ok sr)).1 = 200) := by
  refine ⟨rfl, ?_, ?_, ?_⟩
  · intro h
    simp only [paymentNotif, h]
  · intro frag h1 h2
    simp only [paymentNotif, h1, h2]
  · intro frag rid h1 h2
    rw [paymentNotif_ok_parsed db sr frag rid h1 h2]

/-- C5 witness: a well-formed notification against the fixture database is
acknowledged with HTTP 200. -/
theorem C5_ack_witness :
    (paymentNotif exDbEmpty (Except.ok ⟨"ORDER-1-2".toList, "pending", "x"⟩)).1 = 200 :=
  (C5_ack_only_on_success exDbEmpty ⟨"ORDER-1-2".toList, "pending", "x"⟩).2.2.2
    ['1'] 1 (by decide) (by decide)

/-- C3 (counterexample): the claim says any gateway status outside the
recognised ones causes no status change and that 'pending' is a no-op; but
`newStatus` defaults to `'PENDING'` and the UPDATE runs unconditionally, so
an unknown status ('refund') rewrites an already-paid registration back to
PENDING. -/
theorem C3_counterexample :
    paymentNotif exDbLunas (Except.ok ⟨"ORDER-1-55".toList, "refund", "accept"⟩)
      = (200, { exDbLunas with
          registrasi := [{ exRegLunas with status_pembayaran := .PENDING }] }) ∧
    exRegLunas.status_pembayaran = .LUNAS ∧
    ({ exRegLunas with status_pembayaran := PaymentStatus.PENDING } : Registrasi)
      ≠ exRegLunas := by
  decide

/-- C3 (amended): the webhook maps 'capture' with fraud 'accept' and
'settlement' to LUNAS (paid), 'cancel'/'deny'/'expire' to BATAL
(cancelled); but 'capture' with any other fraud status, 'pending', and any
unrecognised gateway status all map to the default PENDING, and the
resulting status is written to the matched Registration row unconditionally
(an UPDATE, not a log-only no-op). -/
theorem C3_status_mapping (db : DB) (rid now : Nat) (ts fs : String) :
    mapGatewayStatus "capture" "accept" = .LUNAS ∧
    (fs ≠ "accept" → mapGatewayStatus "capture" fs = .PENDING) ∧
    mapGatewayStatus "settlement" fs = .LUNAS ∧
    mapGatewayStatus "cancel" fs = .BATAL ∧
    mapGatewayStatus "deny" fs = .BATAL ∧
    mapGatewayStatus "expire" fs = .BATAL ∧
    mapGatewayStatus "pending" fs = .PENDING ∧
    (ts ≠ "capture" → ts ≠ "settlement" → ts ≠ "cancel" → ts ≠ "deny" →
      ts ≠ "expire" → ts ≠ "pending" → mapGatewayStatus ts fs = .PENDING) ∧
    paymentNotif db (Except.ok ⟨makeOrderId rid now, ts, fs⟩)
      = (200, { db with registrasi :=
          updateStatusById db.registrasi (mapGatewayStatus ts fs) rid }) := by
  refine ⟨rfl, ?_, ?_, ?_, ?_, ?_, ?_, ?_, ?_⟩
  · intro h
    unfold mapGatewayStatus
    rw [if_pos rfl, if_neg h]
  · unfold mapGatewayStatus
    rw [if_neg (by decide), if_pos rfl]
  · unfold mapGatewayStatus
    rw [if_neg (by decide), if_neg (by decide), if_pos (Or.inl rfl)]
  · unfold mapGatewayStatus
    rw [if_neg (by decide), if_neg (by decide), if_pos (Or.inr (Or.inl rfl))]
  · unfold mapGatewayStatus
    rw [if_neg (by decide), if_neg (by decide), if_pos (Or.inr (Or.inr rfl))]
  · unfold mapGatewayStatus
    rw [if_neg (by decide), if_neg (by decide), if_neg (by decide), if_pos rfl]
  · intro h1 h2 h3 h4 h5 h6
    unfold mapGatewayStatus
    rw [if_neg h1, if_neg h2, if_neg (by simp [h3, h4, h5]), if_neg h6]
  · exact paymentNotif_ok_parsed db ⟨makeOrderId rid now, ts, fs⟩
      (natToChars rid) rid
      (by rw [show (StatusResponse.mk (makeOrderId rid now) ts fs).order_id
            = makeOrderId rid now from rfl, splitOnChar_makeOrderId]
          rfl)
      (charsToNat?_natToChars rid)

/-- C3 witness: instantiates the amended mapping at the unknown status
'refund' against the already-paid fixture database. -/
theorem C3_status_mapping_witness :
    mapGatewayStatus "refund" "accept" = PaymentStatus.PENDING ∧
    paymentNotif exDbLunas (Except.ok ⟨makeOrderId 1 55, "refund", "accept"⟩)
      = (200, { exDbLunas with registrasi :=
          (updateStatusById exDbLunas.registrasi (mapGatewayStatus "refund" "accept") 1) }) := by
  have h := C3_status_mapping exDbLunas 1 55 "refund" "accept"
  exact ⟨h.2.2.2.2.2.2.2.1 (by decide) (by decide) (by decide) (by decide)
    (by decide) (by decide), h.2.2.2.2.2.2.2.2⟩

/-- C9 (counterexample): the claim says refresh fails with the auth-error
class (HTTP 401 or 403) when the referenced user no longer exists; but the
handler answers 404 in that case. -/
theorem C9_counterexample :
    refresh { users := [], events := [], tiketTipes := [], registrasi := [] }
      (some (.ok 42)) = .userNotFound ∧
    refreshHttpStatus .userNotFound = 404 ∧
    ¬(refreshHttpStatus .userNotFound = 401 ∨ refreshHttpStatus .userNotFound = 403) := by
  decide

/-- C9 (amended): refresh answers 401 when the token is missing, 403 when
`jwt.verify` rejects it (invalid signature or expired), 404 — not an
auth-error status — when the referenced user no longer exists, and only
when all checks pass does it issue a new access token (HTTP 200) whose
payload carries the user's id, email and role. -/
theorem C9_refresh_cases (db : DB) (userId : Nat) :
    refresh db none = .missingToken ∧
    refreshHttpStatus .missingToken = 401 ∧
    refresh db (some .err) = .invalidToken ∧
    refreshHttpStatus .invalidToken = 403 ∧
    (db.users.find? (fun u => u.id == userId) = none →
      refresh db (some (.ok userId)) = .userNotFound ∧
      refreshHttpStatus .userNotFound = 404) ∧
    (∀ u, db.users.find? (fun u => u.id == userId) = some u →
      refresh db (some (.ok userId))
        = .refreshed { userId := u.id, email := u.email, role := u.role } u ∧
      refreshHttpStatus
        (.refreshed { userId := u.id, email := u.email, role := u.role } u) = 200) := by
  refine ⟨rfl, rfl, rfl, rfl, ?_, ?_⟩
  · intro h
    refine ⟨?_, rfl⟩
    simp only [refresh, h]
  · intro u h
    refine ⟨?_, rfl⟩
    simp only [refresh, h]

/-- C9 witness: the valid-token, missing-user case against the fixture
database, reaching the 404 branch. -/
theorem C9_refresh_cases_witness :
    refresh exDbEmpty (some (.ok 42)) = .userNotFound ∧
    refreshHttpStatus .userNotFound = 404 :=
  (C9_refresh_cases exDbEmpty 42).2.2.2.2.1 (by decide)

/-- C1 (counterexample): the claim says a full ticket type makes register
fail with HTTP 409; the handler does refuse and inserts nothing, but with
`res.status(400)`, not 409. -/
theorem C1_counterexample :
    register exDbFull 4 1 1 2 99 (fun _ => []) = ⟨.soldOut, exDbFull, []⟩ ∧
    countTik exDbFull 1 = exTiketFree.kuota ∧
    registerHttpStatus (register exDbFull 4 1 1 2 99 (fun _ => [])).outcome = 400 ∧
    registerHttpStatus (register exDbFull 4 1 1 2 99 (fun _ => [])).outcome ≠ 409 := by
  decide

/-- C1 (amended): when the ticket type exists for the event, the caller is
not already registered, and the count of existing Registration rows for the
ticket type has reached its quota, register fails with the sold-out error —
HTTP 400, not 409 — leaving the database unchanged and calling no gateway. -/
theorem C1_soldOut_rejects_without_insert (db : DB) (userId eventId tid newId now : Nat)
    (snap : SnapParam → List Char) (tt : TiketTipe) (ev : Event)
    (hfind : findTiket db tid eventId = some (tt, ev))
    (hdup : db.registrasi.any
      (fun r => r.user_id == userId && r.event_id == eventId) = false)
    (hcount : tt.kuota ≤ countTik db tid) :
    register db userId eventId tid newId now snap = ⟨.soldOut, db, []⟩ ∧
    registerHttpStatus .soldOut = 400 := by
  have hc : tt.kuota ≤
      (db.registrasi.filter (fun r => r.tiket_tipe_id == tid)).length := hcount
  exact ⟨by simp [register, hfind, hdup, hc], rfl⟩

/-- C1 witness: a fresh user against the fully booked fixture database. -/
theorem C1_soldOut_witness :
    register exDbFull 7 1 1 3 100 (fun _ => ['x']) = ⟨.soldOut, exDbFull, []⟩ ∧
    registerHttpStatus .soldOut = 400 :=
  C1_soldOut_rejects_without_insert exDbFull 7 1 1 3 100 (fun _ => ['x'])
    exTiketFree exEvent (by decide) (by decide) (by decide)

/-- C2 (counterexample): the claim says the capacity check counts only
non-cancelled Registrations, so a cancelled one frees its slot; but
`countQuery` has no status filter: with quota 1 and a single BATAL
(cancelled) registration, a new registrant is refused although the
non-cancelled count is 0. -/
theorem C2_counterexample :
    register exDbBatal 4 1 1 2 99 (fun _ => []) = ⟨.soldOut, exDbBatal, []⟩ ∧
    specCountNonCancelled exDbBatal 1 = 0 ∧
    countTik exDbBatal 1 = 1 ∧
    specCountNonCancelled exDbBatal 1 < exTiketFree.kuota := by
  decide

/-- C2 (amended): the capacity check compares the quota against the count
of all Registration rows for the ticket type, regardless of status (a
cancelled registration does not free its slot); given the total count is
within quota beforehand, it stays within quota after register, and since
the non-cancelled rows are a subset of all rows their count also never
exceeds the quota; the webhook and the confirmation handler only rewrite
statuses and change no counts. -/
theorem C2_capacity_counts_all_rows (db : DB) (userId eventId tid newId now : Nat)
    (snap : SnapParam → List Char) (tt : TiketTipe) (ev : Event)
    (hfind : findTiket db tid eventId = some (tt, ev))
    (hinv : countTik db tid ≤ tt.kuota) :
    (tt.kuota ≤ countTik db tid →
      db.registrasi.any (fun r => r.user_id == userId && r.event_id == eventId) = false →
      register db userId eventId tid newId now snap = ⟨.soldOut, db, []⟩) ∧
    countTik (register db userId eventId tid newId now snap).db tid ≤ tt.kuota ∧
    specCountNonCancelled (register db userId eventId tid newId now snap).db tid ≤ tt.kuota ∧
    (∀ verif, countTik (paymentNotif db verif).2 tid = countTik db tid) ∧
    (∀ org rid, countTik (confirmPayment db org rid).2 tid = countTik db tid) := by
  have hspec_le : ∀ d : DB, specCountNonCancelled d tid ≤ countTik d tid := by
    intro d
    exact length_filter_and_le (fun r => r.tiket_tipe_id == tid)
      (fun r => !(r.status_pembayaran == .BATAL)) d.registrasi
  have hcount_bound :
      countTik (register db userId eventId tid newId now snap).db tid ≤ tt.kuota := by
    rcases register_db_eq db userId eventId tid newId now snap with h | ⟨h, _, hq⟩
    · rw [h]; exact hinv
    · have hlt := hq tt ev hfind
      rw [h]
      unfold countTik at hlt ⊢
      simp only [List.filter_append, List.length_append]
      have hone : (List.filter (fun r => r.tiket_tipe_id == tid)
          ([{ id := newId, event_id := eventId, user_id := userId, tiket_tipe_id := tid,
              status_pembayaran := .PENDING,
              qr_code_unik := qrCodeUnik eventId userId now }] : List Registrasi)).length = 1 := by
        simp
      rw [hone]
      omega
  have hnotif : ∀ verif, countTik (paymentNotif db verif).2 tid = countTik db tid := by
    intro verif
    cases verif with
    | error e => rfl
    | ok sr =>
      cases hg : (splitOnChar '-' sr.order_id).get? 1 with
      | none => simp only [paymentNotif, hg]
      | some frag =>
        cases hc : charsToNat? frag with
        | none => simp only [paymentNotif, hg, hc]
        | some rid =>
          simp only [paymentNotif, hg, hc]
          exact updateStatusById_countTik db.registrasi _ rid tid
  have hconf : ∀ org rid, countTik (confirmPayment db org rid).2 tid = countTik db tid := by
    intro org rid
    cases hv : confirmVerification db rid with
    | none => simp [confirmPayment, hv]
    | some pe =>
      obtain ⟨r, e⟩ := pe
      by_cases ho : (e.created_by_user_id == org) = true
      · simp only [confirmPayment, hv, ho, if_true]
        exact updateStatusById_countTik db.registrasi _ rid tid
      · rw [Bool.not_eq_true] at ho
        simp [confirmPayment, hv, ho]
  refine ⟨?_, hcount_bound, le_trans (hspec_le _) hcount_bound, hnotif, hconf⟩
  intro hge hdup
  have hc : tt.kuota ≤
      (db.registrasi.filter (fun r => r.tiket_tipe_id == tid)).length := hge
  simp [register, hfind, hdup, hc]

/-- C2 witness: a registration into the empty fixture database keeps both
counts within the quota. -/
theorem C2_capacity_witness :
    countTik (register exDbEmpty 3 1 1 2 210 (fun _ => ['t'])).db 1 ≤ exTiketFree.kuota ∧
    specCountNonCancelled (register exDbEmpty 3 1 1 2 210 (fun _ => ['t'])).db 1
      ≤ exTiketFree.kuota := by
  have h := C2_capacity_counts_all_rows exDbEmpty 3 1 1 2 210 (fun _ => ['t'])
    exTiketFree exEvent (by decide) (by decide)
  exact ⟨h.2.1, h.2.2.1⟩

/-- C4 (counterexample): the claim says a second registration by the same
user for the same event fails with HTTP 409; the handler does refuse it —
even with a different ticket type — and inserts nothing, but with
`res.status(400)`, not 409. -/
theorem C4_counterexample :
    register exDbFull 3 1 2 2 99 (fun _ => []) = ⟨.alreadyRegistered, exDbFull, []⟩ ∧
    exRegPending.user_id = 3 ∧ exRegPending.event_id = 1 ∧
    exRegPending.tiket_tipe_id ≠ 2 ∧
    registerHttpStatus .alreadyRegistered = 400 ∧
    registerHttpStatus .alreadyRegistered ≠ 409 := by
  decide

/-- C4 (amended): when a Registration for (user, event) already exists, a
second attempt — with any ticket type valid for the event — fails with the
already-registered error, HTTP 400 (not 409), inserting no row; and the
at-most-one-Registration-per-(user, event) invariant is preserved by
register, because the insert only happens when the duplicate check found
nothing. -/
theorem C4_duplicate_rejected (db : DB) (userId eventId tid newId now : Nat)
    (snap : SnapParam → List Char) :
    (findTiket db tid eventId ≠ none →
      db.registrasi.any (fun r => r.user_id == userId && r.event_id == eventId) = true →
      register db userId eventId tid newId now snap = ⟨.alreadyRegistered, db, []⟩ ∧
      registerHttpStatus .alreadyRegistered = 400) ∧
    (∀ u e, countPair db u e ≤ 1 →
      countPair (register db userId eventId tid newId now snap).db u e ≤ 1) := by
  constructor
  · intro hne hdup
    obtain ⟨⟨tt, ev⟩, hf⟩ := Option.ne_none_iff_exists'.mp hne
    exact ⟨by simp [register, hf, hdup], rfl⟩
  · intro u e hle
    rcases register_db_eq db userId eventId tid newId now snap with h | ⟨h, hdup, _⟩
    · rw [h]; exact hle
    · rw [h]
      unfold countPair at hle ⊢
      simp only [List.filter_append, List.length_append]
      by_cases hue : userId = u ∧ eventId = e
      · obtain ⟨rfl, rfl⟩ := hue
        have h0 : db.registrasi.filter
            (fun r => r.user_id == userId && r.event_id == eventId) = [] :=
          any_false_filter_nil _ _ hdup
        rw [h0]
        simp
      · have hrow : (List.filter (fun r => r.user_id == u && r.event_id == e)
            ([{ id := newId, event_id := eventId, user_id := userId, tiket_tipe_id := tid,
                status_pembayaran := .PENDING,
                qr_code_unik := qrCodeUnik eventId userId now }] : List Registrasi)).length = 0 := by
          rcases not_and_or.mp hue with hx | hx <;> simp [hx]
        rw [hrow]
        simpa using hle

/-- C4 witness: user 3 of the fixture database, already registered with
ticket type 1, retries with ticket type 2. -/
theorem C4_duplicate_witness :
    register exDbFull 3 1 2 5 120 (fun _ => ['x']) = ⟨.alreadyRegistered, exDbFull, []⟩ ∧
    countPair (register exDbFull 3 1 2 5 120 (fun _ => ['x'])).db 3 1 ≤ 1 := by
  have h := C4_duplicate_rejected exDbFull 3 1 2 5 120 (fun _ => ['x'])
  exact ⟨(h.1 (by decide) (by decide)).1, h.2 3 1 (by decide)⟩

/-- C6: on a successful registration, a zero-price ticket type yields
`isFree = true`, a null payment token and no call to the payment gateway;
a positive price yields `isFree = false` and a non-null token obtained from
the gateway's `createTransaction` call. -/
theorem C6_free_vs_paid (db : DB) (userId eventId tid newId now : Nat)
    (snap : SnapParam → List Char) (tt : TiketTipe) (ev : Event)
    (p : Registrasi) (tok : Option (List Char)) (isF : Bool)
    (hfind : findTiket db tid eventId = some (tt, ev))
    (hout : (register db userId eventId tid newId now snap).outcome
      = .success p tok isF) :
    (tt.harga = 0 → isF = true ∧ tok = none ∧
      (register db userId eventId tid newId now snap).calls = []) ∧
    (0 < tt.harga → isF = false ∧ tok ≠ none ∧
      ∃ pm, (register db userId eventId tid newId now snap).calls = [pm] ∧
        tok = some (snap pm)) := by
  obtain ⟨hp, hdb, hcases⟩ :=
    register_success_shape db userId eventId tid newId now snap p tok isF hout
  rcases hcases tt ev hfind with ⟨h0, hisF, htok, hcalls⟩ |
    ⟨hne, hisF, ud, hu, htok, hcalls⟩
  · exact ⟨fun _ => ⟨hisF, htok, hcalls⟩, fun hlt => absurd h0 (by omega)⟩
  · exact ⟨fun h0 => absurd h0 hne,
      fun _ => ⟨hisF, by simp [htok], _, hcalls, htok⟩⟩

/-- C6 witness: registering for the free ticket type of the fixture
database makes no gateway call. -/
theorem C6_free_vs_paid_witness :
    (register exDbEmpty 3 1 1 2 210 (fun _ => ['t'])).calls = [] := by
  have h := C6_free_vs_paid exDbEmpty 3 1 1 2 210 (fun _ => ['t'])
    exTiketFree exEvent
    { id := 2, event_id := 1, user_id := 3, tiket_tipe_id := 1,
      status_pembayaran := .PENDING, qr_code_unik := qrCodeUnik 1 3 210 }
    none true (by decide) (by decide)
  exact (h.1 (by decide)).2.2

/-- C10: every row created by register is inserted with status PENDING —
the insert always passes `'PENDING'`, also for a zero-price ticket type
whose response says `isFree = true` — and register never turns any row's
status to LUNAS (paid): rows that are LUNAS afterwards were already
present. -/
theorem C10_insert_pending (db : DB) (userId eventId tid newId now : Nat)
    (snap : SnapParam → List Char) (p : Registrasi) (tok : Option (List Char))
    (isF : Bool)
    (hout : (register db userId eventId tid newId now snap).outcome
      = .success p tok isF) :
    p.status_pembayaran = .PENDING ∧
    (register db userId eventId tid newId now snap).db.registrasi
      = db.registrasi ++ [p] ∧
    (∀ x ∈ (register db userId eventId tid newId now snap).db.registrasi,
      x.status_pembayaran = .LUNAS → x ∈ db.registrasi) := by
  obtain ⟨hp, hdb, _⟩ :=
    register_success_shape db userId eventId tid newId now snap p tok isF hout
  refine ⟨by rw [hp], by rw [hdb], ?_⟩
  intro x hx hlu
  rw [hdb] at hx
  simp only [List.mem_append, List.mem_singleton] at hx
  rcases hx with hx | hx
  · exact hx
  · subst hx
    rw [hp] at hlu
    simp at hlu

/-- C10 witness: the free-ticket registration of the fixture database
creates a PENDING row even though its response reports `isFree = true`. -/
theorem C10_insert_pending_witness :
    (register exDbEmpty 3 1 1 2 211 (fun _ => ['t'])).db.registrasi
      = exDbEmpty.registrasi
        ++ [{ id := 2, event_id := 1, user_id := 3, tiket_tipe_id := 1,
              status_pembayaran := .PENDING, qr_code_unik := qrCodeUnik 1 3 211 }] :=
  (C10_insert_pending exDbEmpty 3 1 1 2 211 (fun _ => ['t'])
    { id := 2, event_id := 1, user_id := 3, tiket_tipe_id := 1,
      status_pembayaran := .PENDING, qr_code_unik := qrCodeUnik 1 3 211 }
    none true (by decide)).2.1

/-- C8: for a registration whose event is owned by the calling
organization, confirmPayment sets the status to LUNAS (paid) and answers
200 with it; a second identical call verifies ownership again on the
updated row, reports LUNAS again, and leaves the database exactly as after
the first call — the update only rewrites the status field of the matched
row. -/
theorem C8_confirmPayment_idempotent (db : DB) (org rid : Nat)
    (r : Registrasi) (e : Event)
    (hver : confirmVerification db rid = some (r, e))
    (hown : e.created_by_user_id = org) :
    confirmPayment db org rid
      = (.confirmed rid .LUNAS,
         { db with registrasi := (updateStatusById db.registrasi .LUNAS rid) }) ∧
    confirmPayment
        { db with registrasi := (updateStatusById db.registrasi .LUNAS rid) } org rid
      = (.confirmed rid .LUNAS,
         { db with registrasi := (updateStatusById db.registrasi .LUNAS rid) }) ∧
    (∀ x ∈ updateStatusById db.registrasi .LUNAS rid, x.id = rid →
      x.status_pembayaran = .LUNAS) := by
  have hcond : (e.created_by_user_id == org) = true := by simp [hown]
  have hmem : ∀ x ∈ updateStatusById db.registrasi .LUNAS rid, x.id = rid →
      x.status_pembayaran = .LUNAS := by
    intro x hx hid
    unfold updateStatusById at hx
    rcases List.mem_map.mp hx with ⟨y, _, hyx⟩
    by_cases hyid : y.id = rid
    · rw [← hyx]
      simp [hyid]
    · rw [← hyx] at hid
      simp [hyid] at hid
  cases hf0 : db.registrasi.find? (fun x => x.id == rid) with
  | none => simp [confirmVerification, hf0] at hver
  | some r₀ =>
    cases he0 : db.events.find? (fun e' => e'.id == r₀.event_id) with
    | none => simp [confirmVerification, hf0, he0] at hver
    | some e₀ =>
      have hre : r₀ = r ∧ e₀ = e := by
        simp [confirmVerification, hf0, he0] at hver
        exact hver
      obtain ⟨hre1, hre2⟩ := hre
      subst hre1
      subst hre2
      have hrid' := List.find?_some hf0
      have hrid : (r₀.id == rid) = true := hrid'
      have h1 : confirmPayment db org rid
          = (.confirmed rid .LUNAS,
             { db with registrasi := (updateStatusById db.registrasi .LUNAS rid) }) := by
        simp [confirmPayment, hver, hcond]
      have hp : ∀ x : Registrasi,
          (fun y : Registrasi => y.id == rid)
            (if x.id == rid then { x with status_pembayaran := PaymentStatus.LUNAS } else x)
          = (fun y : Registrasi => y.id == rid) x := by
        intro x
        by_cases hx : x.id = rid <;> simp [hx]
      have hmap : (updateStatusById db.registrasi .LUNAS rid).find?
          (fun x => x.id == rid) = some { r₀ with status_pembayaran := .LUNAS } := by
        unfold updateStatusById
        rw [find?_map_pred_inv
          (fun x => if x.id == rid then { x with status_pembayaran := PaymentStatus.LUNAS } else x)
          (fun y => y.id == rid) hp db.registrasi, hf0]
        have hr : r₀.id = rid := by simpa using hrid
        simp [hr]
      have hver2 : confirmVerification
          { db with registrasi := (updateStatusById db.registrasi .LUNAS rid) } rid
          = some ({ r₀ with status_pembayaran := .LUNAS }, e₀) := by
        simp only [confirmVerification, hmap, he0]
        rfl
      have h2 : confirmPayment
          { db with registrasi := (updateStatusById db.registrasi .LUNAS rid) } org rid
          = (.confirmed rid .LUNAS,
             { db with registrasi := (updateStatusById db.registrasi .LUNAS rid) }) := by
        simp only [confirmPayment, hver2, hcond, if_true]
        rw [updateStatusById_idem]
      exact ⟨h1, h2, hmem⟩

/-- C8 witness: the organization user 2 confirms registration 1 of the
fixture database twice; the second call changes nothing. -/
theorem C8_confirmPayment_witness :
    confirmPayment
        { exDbFull with registrasi := (updateStatusById exDbFull.registrasi .LUNAS 1) } 2 1
      = (.confirmed 1 .LUNAS,
         { exDbFull with registrasi := (updateStatusById exDbFull.registrasi .LUNAS 1) }) :=
  (C8_confirmPayment_idempotent exDbFull 2 1 exRegPending exEvent
    (by decide) (by decide)).2.1

end EventKampus
